import Mathlib

/-!
Shallow embedding of the map-filter controller of `dashboard_app.py`
(repository afulladolsa-imp/flb-observatorio-presupuesto-v2).

The dashboard holds one session-scoped map filter (a Python dict with a
`"kind"` tag plus payload keys), updated by `set_map_filter` / `reset_map`,
and derives the set of project points to draw via `filtered_points`.
`render_map` consumes the selection, showing an informational "no points"
message for an empty selection and otherwise at most 5000 markers.

Modelling conventions:
  * A pandas cell that may be missing (NaN) is an `Option`; numeric cells
    are `ℚ` (after the `pd.to_numeric(..., errors="coerce")`
    pass, a cell is either a number or NaN, which `Option ℚ` captures).
  * A dataframe is its list of column names plus its list of rows; the
    column list models the pandas `df.columns` attribute so that the
    `{"latitud","longitud"}.issubset(d.columns)` guard is expressible.
  * A pandas elementwise comparison `series == v` is `eqCell`: missing
    cells never compare equal, and comparing against a missing payload
    value (`mf.get(key)` returning `None`) is everywhere-false, exactly as
    in pandas.
  * The session dict `st.session_state` may lack the `"map_filter"` key,
    hence the state argument of `set_map_filter` / `reset_map` is an
    `Option MapFilter` read with the same `{"kind": "ALL"}` default the
    Python code passes to `.get`.
  * `st.rerun()` is the redraw signal: the operations return the new state
    paired with a `Bool` that is true exactly when the code calls
    `st.rerun()`.
  * The field named `municipio` in the source is spelled `muniName` here.
-/

namespace Dashboard

/-- One row of the project-level extract (`snip_2025Q4_snip.csv`), with the
columns the map-filter logic reads. Missing cells are `none`. -/
structure ProjectPoint where
  snip : Option Int
  nombre_de_proyecto : Option String
  departamento : Option String
  muniName : Option String
  entidad_ejecutora : Option String
  estado_auditoria : Option String
  latitud : Option ℚ
  longitud : Option ℚ
  flag_inconsistencia_estado_momento : Option ℚ
  deriving DecidableEq, Repr

/-- A dataframe: its column names (`df.columns`) and its rows. -/
structure DataFrame where
  columns : List String
  rows : List ProjectPoint
  deriving DecidableEq, Repr

/-- The session map-filter dict `{"kind": ..., **payload}`: the `"kind"`
tag plus the payload keys any of the dashboard tables may supply; a key
absent from the dict is `none`. -/
structure MapFilter where
  kind : String
  snip : Option Int
  departamento : Option String
  muniName : Option String
  entidad_ejecutora : Option String
  estado_auditoria : Option String
  deriving DecidableEq, Repr

/-- A payload dict passed to `set_map_filter` (everything but `"kind"`). -/
structure Payload where
  snip : Option Int
  departamento : Option String
  muniName : Option String
  entidad_ejecutora : Option String
  estado_auditoria : Option String
  deriving DecidableEq, Repr

/-- The empty payload `{}`. -/
def Payload.empty : Payload := ⟨none, none, none, none, none⟩

/-- The default filter dict `{"kind": "ALL"}` used by `ensure_state`,
`reset_map` and the `.get` defaults. -/
def default_filter : MapFilter := ⟨"ALL", none, none, none, none, none⟩

/-- Building the new dict `{"kind": kind, **payload}`. -/
def mk_filter (kind : String) (payload : Payload) : MapFilter :=
  ⟨kind, payload.snip, payload.departamento, payload.muniName,
    payload.entidad_ejecutora, payload.estado_auditoria⟩

/-- Pandas elementwise equality of a cell against a looked-up payload
value: `NaN == v` and `series == None` are false in pandas, so the
comparison holds only when both sides are present and equal. -/
def eqCell {α : Type} [DecidableEq α] (cell : Option α) (target : Option α) : Bool :=
  match cell, target with
  | some a, some b => decide (a = b)
  | _, _ => false

/-- Truncation toward zero, as in the numpy `.astype(int)` cast of a float. -/
def truncInt (q : ℚ) : Int := Int.tdiv q.num (Int.ofNat q.den)

/-- A row survives `d.dropna(subset=["latitud","longitud"])` exactly when
both coordinates are present. -/
def hasCoords (p : ProjectPoint) : Bool :=
  p.latitud.isSome && p.longitud.isSome

/-- The map selection `filtered_points(df_snip, mf)` of `dashboard_app.py`: if the frame
lacks a `latitud` or `longitud` column, return the empty slice
`d.iloc[0:0]`; otherwise coerce the coordinate columns to numeric (the
identity on this model, where numeric-or-NaN is already `Option ℚ`), drop
rows with a missing coordinate, and dispatch on `mf.get("kind", "ALL")`
exactly as the chain of `if kind == ...` branches does, falling through to
the coordinate-filtered frame for an unrecognized kind. -/
def filtered_points (df_snip : DataFrame) (mf : MapFilter) : DataFrame :=
  if ¬ ("latitud" ∈ df_snip.columns ∧ "longitud" ∈ df_snip.columns) then
    ⟨df_snip.columns, []⟩
  else
    let d : DataFrame := ⟨df_snip.columns, df_snip.rows.filter hasCoords⟩
    let kind := mf.kind
    if kind = "ALL" then d
    else if kind = "SNIP" then
      ⟨d.columns, d.rows.filter (fun p => eqCell p.snip mf.snip)⟩
    else if kind = "MUNICIPIO" then
      ⟨d.columns, d.rows.filter (fun p =>
        eqCell p.departamento mf.departamento && eqCell p.muniName mf.muniName)⟩
    else if kind = "CODEDE" then
      ⟨d.columns, d.rows.filter (fun p => eqCell p.departamento mf.departamento)⟩
    else if kind = "ENTIDAD" then
      ⟨d.columns, d.rows.filter (fun p => eqCell p.entidad_ejecutora mf.entidad_ejecutora)⟩
    else if kind = "ESTADO" then
      ⟨d.columns, d.rows.filter (fun p => eqCell p.estado_auditoria mf.estado_auditoria)⟩
    else if kind = "FLAG_INCONSISTENCIA" then
      ⟨d.columns, d.rows.filter (fun p =>
        truncInt ((p.flag_inconsistencia_estado_momento).getD 0) = 1)⟩
    else d

/-- The update `set_map_filter(kind, payload)`: read the previous state with default
`{"kind": "ALL"}`, store the new dict, and call `st.rerun()` only when the
new dict differs from the previous one (dict value equality). Returns the
stored state and whether `st.rerun()` fired. -/
def set_map_filter (state : Option MapFilter) (kind : String) (payload : Payload) :
    MapFilter × Bool :=
  let prev := state.getD default_filter
  let new := mk_filter kind payload
  (new, decide (prev ≠ new))

/-- The update `reset_map()`: store `{"kind": "ALL"}` and call `st.rerun()` only when
the previous state differed from it. -/
def reset_map (state : Option MapFilter) : MapFilter × Bool :=
  let prev := state.getD default_filter
  let new := default_filter
  (new, decide (prev ≠ new))

/-- What `render_map` puts on screen: either the `st.info` message
`"No hay puntos para el filtro actual."` for an empty selection, or a map
holding markers for the listed points together with the total point
count reported by the caption. -/
inductive RenderResult where
  | noPoints
  | mapShown (markers : List ProjectPoint) (total : Nat)
  deriving DecidableEq, Repr

/-- The renderer performance cap `max_markers = 5000`. -/
def max_markers : Nat := 5000

/-- The renderer `render_map(df_points, title)`: an empty frame shows the explicit
"no points for the current filter" message and returns; otherwise markers
are built from `df_points.head(max_markers)` (a prefix, no re-sort) and
the caption reports `len(df_points)` total points. Tile layers, clustering
and popup text are presentation details outside this model. -/
def render_map (df_points : DataFrame) : RenderResult :=
  if df_points.rows.isEmpty then RenderResult.noPoints
  else RenderResult.mapShown (df_points.rows.take max_markers) df_points.rows.length

/-- The error taxonomy §7 of the design prescribes for dataset loading. -/
inductive LoadError where
  | MissingField (field : String)
  deriving DecidableEq, Repr

/-- The loader `load_csv(path)` of `dashboard_app.py` is `return pd.read_csv(path)`:
the parsed frame is passed through with no required-field validation, so
no `LoadError` is ever produced. The result type makes the (unused) error
channel explicit so that the absence of a `MissingField` abort is a
provable fact rather than a typing accident. -/
def load_csv (parsed : DataFrame) : Except LoadError DataFrame :=
  Except.ok parsed

/-- Spec-side per-variant predicate, following the policy table of §4.1
word for word, for comparison with the dispatch inside `filtered_points`: the
predicate a point must satisfy under filter `mf` once the unconditional
coordinate filter has already been applied. -/
def spec_variant_pred (mf : MapFilter) (p : ProjectPoint) : Bool :=
  if mf.kind = "ALL" then true
  else if mf.kind = "SNIP" then eqCell p.snip mf.snip
  else if mf.kind = "MUNICIPIO" then
    eqCell p.departamento mf.departamento && eqCell p.muniName mf.muniName
  else if mf.kind = "CODEDE" then eqCell p.departamento mf.departamento
  else if mf.kind = "ENTIDAD" then eqCell p.entidad_ejecutora mf.entidad_ejecutora
  else if mf.kind = "ESTADO" then eqCell p.estado_auditoria mf.estado_auditoria
  else if mf.kind = "FLAG_INCONSISTENCIA" then
    truncInt ((p.flag_inconsistencia_estado_momento).getD 0) = 1
  else true

/-- Spec-side truthiness of the inconsistency flag, following the
`ByInconsistencyFlag` policy of §4.1: a present, nonzero value is truthy; a
missing (null) value is false. -/
def flag_truthy (p : ProjectPoint) : Bool :=
  match p.flag_inconsistencia_estado_momento with
  | some q => decide (q ≠ 0)
  | none => false

/-- A shorthand for the payload `{"snip": v}` the SNIP tables send. -/
def snip_payload (v : Int) : Payload := ⟨some v, none, none, none, none⟩

/-- A shorthand for the payload `{"estado_auditoria": s}` the overview
table sends. -/
def estado_payload (s : String) : Payload := ⟨none, none, none, none, some s⟩

/-! Concrete sample data used by witnesses and counterexamples. -/

/-- A sample project in Guatemala / Mixco with coordinates and flag 1. -/
def ptGuate1 : ProjectPoint :=
  ⟨some 1, some "Escuela", some "Guatemala", some "Mixco", some "MICIVI",
    some "Activo", some 14, some (-90), some 1⟩

/-- A sample project with coordinates whose inconsistency flag is 2. -/
def ptGuate2 : ProjectPoint :=
  ⟨some 2, some "Puente", some "Guatemala", some "Villa Nueva", some "MAGA",
    some "Finalizado", some 15, some (-91), some 2⟩

/-- A sample project with a missing latitude and a missing flag. -/
def ptNoCoord : ProjectPoint :=
  ⟨some 3, some "Camino", some "Peten", some "Flores", some "MICIVI",
    some "Activo", none, some (-89), none⟩

/-- A sample project with coordinates and flag 0. -/
def ptFlagZero : ProjectPoint :=
  ⟨some 4, some "Pozo", some "Quiche", some "Nebaj", some "INFOM",
    some "Activo", some 15, some (-91), some 0⟩

/-- A sample frame with both coordinate columns and three rows. -/
def sampleFrame : DataFrame :=
  ⟨["snip", "latitud", "longitud"], [ptGuate1, ptGuate2, ptNoCoord]⟩

/-- A sample frame whose flags take only the boolean values 1, null, 0. -/
def flagsFrame : DataFrame :=
  ⟨["snip", "latitud", "longitud"], [ptGuate1, ptNoCoord, ptFlagZero]⟩

/-- A sample frame lacking the `latitud` column. -/
def noLatFrame : DataFrame := ⟨["snip", "longitud"], [ptNoCoord]⟩

/-- A sample frame lacking the `longitud` column. -/
def noLonFrame : DataFrame := ⟨["snip", "latitud"], [ptGuate1]⟩

/-- A sample frame with 5001 coordinate-bearing rows, past the marker cap. -/
def bigFrame : DataFrame :=
  ⟨["latitud", "longitud"], List.replicate 5001 ptGuate1⟩

/-! Helper lemmas shared by several results. -/

/-- The selection never invents columns: the output frame carries exactly
the column list of the input frame. -/
theorem filtered_points_columns (df : DataFrame) (mf : MapFilter) :
    (filtered_points df mf).columns = df.columns := by
  unfold filtered_points
  split
  · rfl
  · dsimp only
    split
    · rfl
    · split
      · rfl
      · split
        · rfl
        · split
          · rfl
          · split
            · rfl
            · split
              · rfl
              · split <;> rfl

/-- When both coordinate columns exist, the selection factors as the
unconditional coordinate filter followed by the per-variant predicate of
the §4.1 policy table. -/
theorem filtered_points_factor (df : DataFrame) (mf : MapFilter)
    (hc : "latitud" ∈ df.columns ∧ "longitud" ∈ df.columns) :
    (filtered_points df mf).rows
      = (df.rows.filter hasCoords).filter (spec_variant_pred mf) := by
  by_cases h1 : mf.kind = "ALL"
  · simp [filtered_points, spec_variant_pred, hc, h1]
  · by_cases h2 : mf.kind = "SNIP"
    · simp [filtered_points, spec_variant_pred, hc, h1, h2]
    · by_cases h3 : mf.kind = "MUNICIPIO"
      · simp [filtered_points, spec_variant_pred, hc, h1, h2, h3]
      · by_cases h4 : mf.kind = "CODEDE"
        · simp [filtered_points, spec_variant_pred, hc, h1, h2, h3, h4]
        · by_cases h5 : mf.kind = "ENTIDAD"
          · simp [filtered_points, spec_variant_pred, hc, h1, h2, h3, h4, h5]
          · by_cases h6 : mf.kind = "ESTADO"
            · simp [filtered_points, spec_variant_pred, hc, h1, h2, h3, h4, h5, h6]
            · by_cases h7 : mf.kind = "FLAG_INCONSISTENCIA"
              · simp [filtered_points, spec_variant_pred, hc, h1, h2, h3, h4, h5, h6, h7]
              · simp [filtered_points, spec_variant_pred, hc, h1, h2, h3, h4, h5, h6, h7]

/-- Without both coordinate columns, the selection is the empty slice. -/
theorem filtered_points_nocols (df : DataFrame) (mf : MapFilter)
    (hc : ¬ ("latitud" ∈ df.columns ∧ "longitud" ∈ df.columns)) :
    filtered_points df mf = ⟨df.columns, []⟩ := by
  simp [filtered_points, hc]

/-! Results for the individual claims. -/

/-- C1: for every point set and every filter state, `filtered_points`
returns a subset of the records of the input frame — every output row is
one of the input rows, with nothing fabricated or altered. -/
theorem c1_select_subset (df : DataFrame) (mf : MapFilter) (p : ProjectPoint)
    (hp : p ∈ (filtered_points df mf).rows) : p ∈ df.rows := by
  by_cases hc : "latitud" ∈ df.columns ∧ "longitud" ∈ df.columns
  · rw [filtered_points_factor df mf hc] at hp
    exact (List.mem_filter.mp (List.mem_filter.mp hp).1).1
  · rw [filtered_points_nocols df mf hc] at hp
    simp at hp

/-- Witness for C1 at a concrete frame, filter and row. -/
theorem c1_select_subset_witness :
    ptGuate1 ∈ (filtered_points sampleFrame default_filter).rows ∧
      ptGuate1 ∈ sampleFrame.rows :=
  ⟨by decide, c1_select_subset sampleFrame default_filter ptGuate1 (by decide)⟩

/-- C2: under every filter state, a point missing latitude or longitude
never appears in the selection, and when both coordinate columns exist the
selection is exactly the coordinate-presence filter applied first followed
by the per-variant predicate. -/
theorem c2_coordinate_precondition (df : DataFrame) (mf : MapFilter) :
    (∀ p ∈ (filtered_points df mf).rows,
        p.latitud.isSome = true ∧ p.longitud.isSome = true) ∧
    (("latitud" ∈ df.columns ∧ "longitud" ∈ df.columns) →
      (filtered_points df mf).rows
        = (df.rows.filter hasCoords).filter (spec_variant_pred mf)) := by
  constructor
  · intro p hp
    by_cases hc : "latitud" ∈ df.columns ∧ "longitud" ∈ df.columns
    · rw [filtered_points_factor df mf hc] at hp
      have hcoord : hasCoords p = true :=
        (List.mem_filter.mp (List.mem_filter.mp hp).1).2
      unfold hasCoords at hcoord
      exact ⟨(Bool.and_eq_true _ _ |>.mp hcoord).1,
        (Bool.and_eq_true _ _ |>.mp hcoord).2⟩
    · rw [filtered_points_nocols df mf hc] at hp
      simp at hp
  · intro hc
    exact filtered_points_factor df mf hc

/-- Witness for C2 at a concrete frame and the inconsistency-flag filter. -/
theorem c2_coordinate_precondition_witness :
    (ptGuate1.latitud.isSome = true ∧ ptGuate1.longitud.isSome = true) ∧
      (filtered_points sampleFrame (mk_filter "FLAG_INCONSISTENCIA" Payload.empty)).rows
        = (sampleFrame.rows.filter hasCoords).filter
            (spec_variant_pred (mk_filter "FLAG_INCONSISTENCIA" Payload.empty)) :=
  ⟨(c2_coordinate_precondition sampleFrame
      (mk_filter "FLAG_INCONSISTENCIA" Payload.empty)).1 ptGuate1 (by decide),
   (c2_coordinate_precondition sampleFrame
      (mk_filter "FLAG_INCONSISTENCIA" Payload.empty)).2 (by decide)⟩

/-- C3: storing a filter triggers the redraw signal exactly when the newly
built dict differs from the current one under value equality; when they
are equal the stored state is the old value and no redraw fires. -/
theorem c3_redraw_on_change (s : Option MapFilter) (k : String) (pl : Payload) :
    (set_map_filter s k pl).1 = mk_filter k pl ∧
    ((set_map_filter s k pl).2 = true ↔ mk_filter k pl ≠ s.getD default_filter) ∧
    (mk_filter k pl = s.getD default_filter →
      (set_map_filter s k pl).1 = s.getD default_filter ∧
        (set_map_filter s k pl).2 = false) := by
  refine ⟨rfl, ?_, fun h => ⟨h, ?_⟩⟩
  · simp [set_map_filter]
    exact ne_comm
  · simp [set_map_filter, h]

/-- Witness for C3: reselecting the already-active state fires no redraw. -/
theorem c3_redraw_on_change_witness :
    (set_map_filter (some (mk_filter "ESTADO" (estado_payload "Activo")))
        "ESTADO" (estado_payload "Activo")).1
      = mk_filter "ESTADO" (estado_payload "Activo") ∧
    (set_map_filter (some (mk_filter "ESTADO" (estado_payload "Activo")))
        "ESTADO" (estado_payload "Activo")).2 = false :=
  ⟨(c3_redraw_on_change (some (mk_filter "ESTADO" (estado_payload "Activo")))
      "ESTADO" (estado_payload "Activo")).1,
   ((c3_redraw_on_change (some (mk_filter "ESTADO" (estado_payload "Activo")))
      "ESTADO" (estado_payload "Activo")).2.2 (by decide)).2⟩

/-- C4 counterexample: a kind outside the closed tag set is accepted
without any error — the state is stored and the redraw fires — and the
selection under it coincides with the `All` behaviour on a frame where
that behaviour is visibly nonempty. -/
theorem c4_counterexample :
    set_map_filter (some default_filter) "BOGUS" Payload.empty
        = (mk_filter "BOGUS" Payload.empty, true) ∧
    (filtered_points sampleFrame (mk_filter "BOGUS" Payload.empty)).rows
        = (filtered_points sampleFrame default_filter).rows ∧
    (filtered_points sampleFrame (mk_filter "BOGUS" Payload.empty)).rows ≠ [] := by
  decide

/-- C4 amended: an unrecognized kind raises nothing and falls through —
the selection under it is the `All` selection. -/
theorem c4_amended_fallthrough (df : DataFrame) (mf : MapFilter)
    (h1 : mf.kind ≠ "ALL") (h2 : mf.kind ≠ "SNIP") (h3 : mf.kind ≠ "MUNICIPIO")
    (h4 : mf.kind ≠ "CODEDE") (h5 : mf.kind ≠ "ENTIDAD") (h6 : mf.kind ≠ "ESTADO")
    (h7 : mf.kind ≠ "FLAG_INCONSISTENCIA") :
    filtered_points df mf = filtered_points df default_filter := by
  simp [filtered_points, default_filter, h1, h2, h3, h4, h5, h6, h7]

/-- Witness for the amended C4 at a concrete typo kind. -/
theorem c4_amended_fallthrough_witness :
    filtered_points sampleFrame (mk_filter "TYPO" Payload.empty)
      = filtered_points sampleFrame default_filter :=
  c4_amended_fallthrough sampleFrame (mk_filter "TYPO" Payload.empty)
    (by decide) (by decide) (by decide) (by decide) (by decide) (by decide) (by decide)

/-- C5: `reset_map` always stores the `All` state, is the same operation
as `set_map_filter` with kind `"ALL"` and an empty payload, and triggers a
redraw exactly when the prior state was not already `All`. -/
theorem c5_reset_equiv (s : Option MapFilter) :
    reset_map s = set_map_filter s "ALL" Payload.empty ∧
    (reset_map s).1 = default_filter ∧
    ((reset_map s).2 = true ↔ s.getD default_filter ≠ default_filter) := by
  refine ⟨rfl, rfl, ?_⟩
  simp [reset_map]

/-- C6 counterexample: a coordinate-bearing point whose inconsistency
flag is 2 — truthy under the policy wording — is nonetheless excluded by
the selection, which tests the integer-cast flag for equality with 1. -/
theorem c6_counterexample :
    flag_truthy ptGuate2 = true ∧ hasCoords ptGuate2 = true ∧
    ptGuate2 ∈ sampleFrame.rows ∧
    ("latitud" ∈ sampleFrame.columns ∧ "longitud" ∈ sampleFrame.columns) ∧
    ptGuate2 ∉
      (filtered_points sampleFrame (mk_filter "FLAG_INCONSISTENCIA" Payload.empty)).rows := by
  decide

/-- C6 amended: on frames whose flag column holds only the boolean values
0, 1 or null — the flag the data model declares — the selection under the
inconsistency-flag filter is exactly the coordinate-bearing points with a
truthy flag, a missing flag counting as false. -/
theorem c6_amended_boolean_flags (df : DataFrame)
    (hc : "latitud" ∈ df.columns ∧ "longitud" ∈ df.columns)
    (hflags : ∀ p ∈ df.rows,
      p.flag_inconsistencia_estado_momento = none ∨
      p.flag_inconsistencia_estado_momento = some 0 ∨
      p.flag_inconsistencia_estado_momento = some 1) :
    (filtered_points df (mk_filter "FLAG_INCONSISTENCIA" Payload.empty)).rows
      = (df.rows.filter hasCoords).filter flag_truthy := by
  rw [filtered_points_factor df _ hc]
  refine List.filter_congr ?_
  intro p hp
  rcases hflags p (List.mem_filter.mp hp).1 with h | h | h <;>
    simp [spec_variant_pred, flag_truthy, mk_filter, Payload.empty, h, truncInt]

/-- Witness for the amended C6 on a frame with flags 1, null and 0. -/
theorem c6_amended_boolean_flags_witness :
    (filtered_points flagsFrame (mk_filter "FLAG_INCONSISTENCIA" Payload.empty)).rows
      = (flagsFrame.rows.filter hasCoords).filter flag_truthy :=
  c6_amended_boolean_flags flagsFrame (by decide) (by decide)

/-- C7: a SNIP filter whose identifier matches no row yields an empty
selection with no error (the selection is total), and the renderer shows
the explicit no-points message for it rather than a map. -/
theorem c7_empty_result_ok (df : DataFrame) (v : Int)
    (hv : ∀ p ∈ df.rows, p.snip ≠ some v) :
    (filtered_points df (mk_filter "SNIP" (snip_payload v))).rows = [] ∧
    render_map (filtered_points df (mk_filter "SNIP" (snip_payload v)))
      = RenderResult.noPoints := by
  have hrows : (filtered_points df (mk_filter "SNIP" (snip_payload v))).rows = [] := by
    by_cases hc : "latitud" ∈ df.columns ∧ "longitud" ∈ df.columns
    · rw [filtered_points_factor df _ hc, List.filter_eq_nil_iff]
      intro p hp
      have hpd := hv p (List.mem_filter.mp hp).1
      simp only [spec_variant_pred, mk_filter, snip_payload]
      simp only [String.reduceEq, if_false, if_true, reduceIte]
      rcases hsnip : p.snip with _ | a
      · simp [eqCell]
      · simp [eqCell]
        intro hav
        exact hpd (by rw [hsnip, hav])
    · rw [filtered_points_nocols df _ hc]
  exact ⟨hrows, by simp [render_map, hrows]⟩

/-- Witness for C7: identifier 12345 matches nothing in the sample. -/
theorem c7_empty_result_ok_witness :
    (filtered_points sampleFrame (mk_filter "SNIP" (snip_payload 12345))).rows = [] ∧
    render_map (filtered_points sampleFrame (mk_filter "SNIP" (snip_payload 12345)))
      = RenderResult.noPoints :=
  c7_empty_result_ok sampleFrame 12345 (by decide)

/-- C8: the selection applies no size cap — under the `All` filter on an
all-coordinate frame it returns every row — while the renderer shows the
5000-marker prefix of the selection, in the original order (the shown
markers followed by the dropped tail reassemble the selection). -/
theorem c8_cap_only_in_renderer (df : DataFrame) (mf : MapFilter)
    (hc : "latitud" ∈ df.columns ∧ "longitud" ∈ df.columns)
    (hall : ∀ p ∈ df.rows, hasCoords p = true)
    (hk : mf.kind = "ALL") (hne : df.rows ≠ []) :
    (filtered_points df mf).rows = df.rows ∧
    render_map (filtered_points df mf)
      = RenderResult.mapShown (df.rows.take max_markers) df.rows.length ∧
    df.rows.take max_markers ++ df.rows.drop max_markers = df.rows := by
  have h1 : df.rows.filter hasCoords = df.rows := List.filter_eq_self.mpr hall
  have h2 : spec_variant_pred mf = fun _ => true := by
    funext p
    simp [spec_variant_pred, hk]
  have hrows : (filtered_points df mf).rows = df.rows := by
    rw [filtered_points_factor df mf hc, h1, h2, List.filter_true]
  refine ⟨hrows, ?_, List.take_append_drop _ _⟩
  have hempty : df.rows.isEmpty = false := List.isEmpty_eq_false.mpr hne
  simp [render_map, hrows, hempty]

/-- Witness for C8 on a frame of 5001 rows: the selection keeps all 5001
rows and the renderer caps the markers at 5000. -/
theorem c8_cap_only_in_renderer_witness :
    bigFrame.rows.length = 5001 ∧ max_markers = 5000 ∧
    ((filtered_points bigFrame default_filter).rows = bigFrame.rows ∧
      render_map (filtered_points bigFrame default_filter)
        = RenderResult.mapShown (bigFrame.rows.take max_markers) bigFrame.rows.length ∧
      bigFrame.rows.take max_markers ++ bigFrame.rows.drop max_markers
        = bigFrame.rows) :=
  ⟨List.length_replicate 5001 ptGuate1, rfl,
   c8_cap_only_in_renderer bigFrame default_filter (by decide)
     (by
       intro p hp
       rcases List.mem_replicate.mp hp with ⟨-, rfl⟩
       decide)
     rfl
     (by
       intro h
       have hlen : (List.replicate 5001 ptGuate1).length = ([] : List ProjectPoint).length :=
         congrArg List.length h
       rw [List.length_replicate] at hlen
       exact absurd hlen (by decide))⟩

/-- C9 counterexample: a frame whose rows lack the latitude attribute (and
whose column set lacks it) loads with no `MissingField` abort — `load_csv`
is a bare read-through — and the map selection silently comes back empty. -/
theorem c9_counterexample :
    ptNoCoord.latitud = none ∧ ptNoCoord ∈ noLatFrame.rows ∧
    load_csv noLatFrame = Except.ok noLatFrame ∧
    (filtered_points noLatFrame default_filter).rows = [] :=
  ⟨rfl, by decide, rfl, by decide⟩

/-- C9 amended: the load performs no required-field validation at all —
every parsed frame is returned as-is, so no `MissingField` error can ever
abort startup — and a frame without the latitude column flows on to an
empty selection instead of failing. -/
theorem c9_amended_no_validation (parsed : DataFrame) (mf : MapFilter) :
    load_csv parsed = Except.ok parsed ∧
    ("latitud" ∉ parsed.columns → (filtered_points parsed mf).rows = []) := by
  refine ⟨rfl, fun h => ?_⟩
  rw [filtered_points_nocols parsed mf (by tauto)]

/-- Witness for the amended C9 on the frame missing its latitude column. -/
theorem c9_amended_no_validation_witness :
    load_csv noLatFrame = Except.ok noLatFrame ∧
    (filtered_points noLatFrame (mk_filter "SNIP" (snip_payload 3))).rows = [] :=
  ⟨(c9_amended_no_validation noLatFrame (mk_filter "SNIP" (snip_payload 3))).1,
   (c9_amended_no_validation noLatFrame (mk_filter "SNIP" (snip_payload 3))).2
     (by decide)⟩

/-- C10: if the input frame lacks the `latitud` column or the `longitud`
column, the selection is the empty slice (same columns, no rows) under
every filter state, and no error is raised (the function is total). -/
theorem c10_missing_columns (df : DataFrame) (mf : MapFilter)
    (h : "latitud" ∉ df.columns ∨ "longitud" ∉ df.columns) :
    filtered_points df mf = ⟨df.columns, []⟩ := by
  apply filtered_points_nocols
  tauto

/-- Witness for C10 at concrete frames missing one coordinate column. -/
theorem c10_missing_columns_witness :
    filtered_points noLatFrame default_filter = ⟨noLatFrame.columns, []⟩ ∧
      filtered_points noLonFrame (mk_filter "SNIP" (snip_payload 1))
        = ⟨noLonFrame.columns, []⟩ :=
  ⟨c10_missing_columns noLatFrame default_filter (by decide),
   c10_missing_columns noLonFrame (mk_filter "SNIP" (snip_payload 1)) (by decide)⟩

end Dashboard
